import Mathlib

/-!
# bmclib-tester: the device tester, the result store and the run command

Sources embedded: `internal/tester.go`, `internal/system_tests.go`,
`internal/config.go`, `cmd/run.go`.

Conventions of the embedding.

* A Go `error` is `Option String`: `none` is `nil`, `some m` is a non-nil error whose
  `Error()` text is `m` (which Go allows to be the empty string).
* `*bmclib.Client`, the clock and `time.Duration.String` belong to libraries outside the
  repository.  They are taken as a parameter, `Bmclib σ`, over a type `σ` of client
  states; every client method maps a state to its return values and the next state.
* The five `providers.Feature...` constants are bmclib constants as well; they are the
  fields of `Providers`.
* Methods with a pointer receiver take the receiver's value and return the new one.
* `Run` returns, next to the tester, the client's last state and the list of the calls
  it made to the logger, to the client's `Open`/`Close` and to the test procedures, in
  program order.
-/

namespace BmclibTester

/-! ## Library types -/

/-- Go `error`: `none` is nil, `some m` a non-nil error with message `m`. -/
abbrev GoError := Option String

/-- Durations and instants, in nanoseconds as in package `time`. -/
abbrev Duration := Int

/-- Value of `time.Minute`, in nanoseconds. -/
def Minute : Duration := 60 * 1000000000

/-- Contexts of package `context`, as far as the sources build them: the background
context, a context obtained from another library (cobra's command context) and
`context.WithTimeout`. -/
inductive Context where
  | Background : Context
  | Given (id : Nat) : Context
  | WithTimeout (parent : Context) (timeout : Duration) : Context
  deriving DecidableEq, Repr

/-- The part of `bmc.Metadata` the tester reads. -/
structure Metadata where
  ProvidersAttempted : List String := []
  SuccessfulProvider : String := ""
  deriving DecidableEq, Repr

/-- The bmclib client, the clock and the duration printer, over client states `σ`. -/
structure Bmclib (σ : Type) where
  /-- Models `bmclib.NewClient(host, port, user, pass, opts...)`. -/
  NewClient : String → String → String → String → σ
  /-- Models `client.Registry.Drivers = client.Registry.Using(protocol)`. -/
  Using : String → σ → σ
  /-- Models `client.Open(ctx)`. -/
  Open : Context → σ → GoError × σ
  /-- Models `client.Close(ctx)`. -/
  Close : Context → σ → GoError × σ
  /-- Models `client.GetMetadata()`. -/
  GetMetadata : σ → Metadata
  /-- Models `client.GetPowerState(ctx)`. -/
  GetPowerState : Context → σ → (String × GoError) × σ
  /-- Models `time.Now()`, read off the state of the world the client lives in. -/
  Now : σ → Duration
  /-- Models `time.Duration.String`. -/
  DurationString : Duration → String

/-- The `providers.Feature...` constants used as keys of the registry.  Go rejects a map
literal with two equal constant keys, hence `distinct`. -/
structure Providers where
  FeaturePowerState : String
  FeaturePowerSet : String
  FeatureBootDeviceSet : String
  FeatureBmcReset : String
  FeatureUserRead : String
  distinct : [FeaturePowerState, FeaturePowerSet, FeatureBootDeviceSet,
    FeatureBmcReset, FeatureUserRead].Nodup

/-! ## internal/config.go -/

/-- Struct `ConfigTests`. -/
structure ConfigTests where
  Protocol : String := ""
  Provider : String := ""
  Features : List String := []
  deriving DecidableEq, Repr

/-- One element of `ConfigHardware.Devices`. -/
structure Device where
  Name : String := ""
  Vendor : String := ""
  Model : String := ""
  BmcHost : String := ""
  BmcUser : String := ""
  BmcPass : String := ""
  IpmiPort : String := ""
  deriving DecidableEq, Repr

/-- Struct `ConfigHardware`. -/
structure ConfigHardware where
  Devices : List Device := []
  deriving DecidableEq, Repr

/-! ## internal/tester.go -/

/-- Constant `loginTimeout`. -/
def loginTimeout : Duration := Minute * 1

/-- Constant `logoutTimeout`. -/
def logoutTimeout : Duration := Minute * 1

/-- Struct `Result`. -/
structure Result where
  Feature : String := ""
  Protocol : String := ""
  ProvidersAttempted : List String := []
  SuccessfulProvider : String := ""
  Output : String := ""
  Error : String := ""
  Succeeded : Bool := false
  Runtime : String := ""
  deriving DecidableEq, Repr

/-- Struct `DeviceResult`. -/
structure DeviceResult where
  Vendor : String := ""
  Model : String := ""
  Name : String := ""
  BMCIP : String := ""
  Results : List Result := []
  deriving DecidableEq, Repr

/-- Type `testFunc`: `func(context.Context, *bmclib.Client) (string, error)`. -/
abbrev testFunc (σ : Type) := Context → σ → (String × GoError) × σ

/-- Struct `test`. -/
structure test (σ : Type) where
  Feature : String
  TestFunc : testFunc σ

/-- The logger built by `NewLogger`: only its level is kept. -/
inductive Logger where
  | DebugLevel : Logger
  | InfoLevel : Logger
  deriving DecidableEq, Repr

/-- Function `NewLogger`. -/
def NewLogger (level : String) : Logger :=
  if level = "debug" then Logger.DebugLevel else Logger.InfoLevel

/-- Struct `Tester`. -/
structure Tester (σ : Type) where
  bmcHost : String
  bmcUser : String
  bmcPass : String
  bmcPort : String
  tests : List (test σ) := []
  results : List Result := []
  disableFiltering : Bool
  logger : Logger

/-- Function `NewTester`. -/
def NewTester {σ : Type} (bmcHost bmcUser bmcPass bmcPort : String) (disableFilter : Bool)
    (logLevel : String) : Tester σ :=
  { bmcHost := bmcHost
    bmcUser := bmcUser
    bmcPass := bmcPass
    bmcPort := bmcPort
    disableFiltering := disableFilter
    logger := NewLogger logLevel }

/-! ### internal/system_tests.go -/

/-- Method `Tester.powerState`. -/
def powerState {σ : Type} (B : Bmclib σ) : testFunc σ :=
  fun ctx conn => B.GetPowerState ctx conn

/-- Method `Tester.powerSet`. -/
def powerSet {σ : Type} : testFunc σ :=
  fun _ conn => (("", none), conn)

/-- Method `Tester.userRead`. -/
def userRead {σ : Type} : testFunc σ :=
  fun _ conn => (("", none), conn)

/-- Method `Tester.bmcReset`. -/
def bmcReset {σ : Type} : testFunc σ :=
  fun _ conn => (("", none), conn)

/-- Method `Tester.bootDeviceSet`. -/
def bootDeviceSet {σ : Type} : testFunc σ :=
  fun _ conn => (("", none), conn)

/-- Method `Tester.registry`: the map literal, as the list of its key/value pairs. -/
def registry {σ : Type} (P : Providers) (B : Bmclib σ) : List (String × testFunc σ) :=
  [ (P.FeaturePowerState, powerState B),
    (P.FeaturePowerSet, powerSet),
    (P.FeatureBootDeviceSet, bootDeviceSet),
    (P.FeatureBmcReset, bmcReset),
    (P.FeatureUserRead, userRead) ]

/-- The loop of `initTester`: `runTests` grows by one test per feature, and the first
feature missing from the registry ends the function with an error. -/
def initTesterLoop {σ : Type} (reg : List (String × testFunc σ)) :
    List String → List (test σ) → Except String (List (test σ))
  | [], runTests => Except.ok runTests
  | feature :: rest, runTests =>
    match reg.lookup feature with
    | none => Except.error ("unknown bmclib feature defined in test: " ++ feature)
    | some f => initTesterLoop reg rest (runTests ++ [{ Feature := feature, TestFunc := f }])

/-- Method `Tester.initTester`. -/
def initTester {σ : Type} (P : Providers) (B : Bmclib σ) (t : Tester σ) (_ctx : Context)
    (configTests : ConfigTests) : GoError × Tester σ :=
  match initTesterLoop (registry P B) configTests.Features [] with
  | Except.error e => (some e, t)
  | Except.ok runTests => (none, { t with tests := runTests })

/-- Calls that `Run` makes, in program order. -/
inductive Event where
  | LogError (err msg : String) : Event
  | LogInfo (v : Nat) (msg : String) (keysAndValues : List String) : Event
  | Open (ctx : Context) : Event
  | TestFunc (feature : String) (ctx : Context) : Event
  | Close (ctx : Context) : Event
  | Cancel (ctx : Context) : Event
  deriving DecidableEq, Repr

/-- Method `Tester.newBmclibClient` (the logger and the per-provider timeout are options
of the client and stay inside `NewClient`; `provider` is not used by the source). -/
def newBmclibClient {σ : Type} (B : Bmclib σ) (t : Tester σ) (_provider protocol : String) : σ :=
  let client := B.NewClient t.bmcHost t.bmcPort t.bmcUser t.bmcPass
  if !t.disableFiltering then B.Using protocol client else client

/-- The loop of `Run` taken when `client.Open` failed with `err`. -/
def openFailedLoop {σ : Type} (B : Bmclib σ) (protocol err : String) (client : σ) :
    List (test σ) → List Result → List Result
  | [], results => results
  | tst :: rest, results =>
    openFailedLoop B protocol err client rest
      (results ++ [{ Feature := tst.Feature
                     Protocol := protocol
                     Error := err
                     ProvidersAttempted := (B.GetMetadata client).ProvidersAttempted }])

/-- The body of the test loop of `Run` for one test: the result it appends, the client
afterwards and the calls made. -/
def runOne {σ : Type} (B : Bmclib σ) (ctx : Context) (protocol : String) (tst : test σ)
    (client : σ) : Result × σ × List Event :=
  let startTime := B.Now client
  let result : Result := { Feature := tst.Feature, Protocol := protocol }
  let ret := tst.TestFunc ctx client
  let output := ret.1.1
  let client1 := ret.2
  let (result, logged) :=
    match ret.1.2 with
    | some e => ({ result with Error := e }, Event.LogInfo 1 "Test failed: " [tst.Feature])
    | none => ({ result with Succeeded := true },
        Event.LogInfo 1 "Test successful: " [tst.Feature])
  let result := { result with SuccessfulProvider := (B.GetMetadata client1).SuccessfulProvider }
  let result := { result with Output := output }
  let result := { result with Runtime := B.DurationString (B.Now client1 - startTime) }
  (result, client1,
    [Event.LogInfo 1 "running test" ["feature", tst.Feature],
     Event.TestFunc tst.Feature ctx, logged])

/-- The test loop of `Run` (connection open). -/
def runLoop {σ : Type} (B : Bmclib σ) (ctx : Context) (protocol : String) :
    List (test σ) → σ → List Result → List Event → List Result × σ × List Event
  | [], client, results, trace => (results, client, trace)
  | tst :: rest, client, results, trace =>
    let step := runOne B ctx protocol tst client
    runLoop B ctx protocol rest step.2.1 (results ++ [step.1]) (trace ++ step.2.2)

/-- Method `Tester.Run`.  Returns the tester, the client's last state and the calls made. -/
def Run {σ : Type} (P : Providers) (B : Bmclib σ) (t : Tester σ) (ctx : Context)
    (tests : ConfigTests) : Tester σ × σ × List Event :=
  let init := initTester P B t ctx tests
  let t := init.2
  let trace : List Event :=
    match init.1 with
    | some err => [Event.LogError err "tester init error"]
    | none => []
  let client := newBmclibClient B t tests.Provider tests.Protocol
  let opened := B.Open ctx client
  let client := opened.2
  let trace := trace ++ [Event.Open ctx]
  match opened.1 with
  | some err =>
    ({ t with results := openFailedLoop B tests.Protocol err client t.tests t.results },
      client, trace)
  | none =>
    let ctxClose := Context.WithTimeout Context.Background (Minute * 1)
    let looped := runLoop B ctx tests.Protocol t.tests client t.results trace
    -- deferred calls, last registered first
    let closed := B.Close ctxClose looped.2.1
    ({ t with results := looped.1 }, closed.2,
      looped.2.2 ++ [Event.Close ctxClose, Event.Cancel ctxClose])

/-- Method `Tester.Results`. -/
def Tester.Results {σ : Type} (t : Tester σ) : List Result := t.results

/-- Function `SupportedProviders`. -/
def SupportedProviders : List String := ["ipmitool", "gofish"]

/-- Function `SupportedProtocols`. -/
def SupportedProtocols : List String := ["ipmi", "redfish"]

/-- Struct `ResultStore`.  The mutex is not a field here: `Save` and `Read` hold it for
their whole body, so each call is one step on `results`. -/
structure ResultStore where
  results : List DeviceResult := []
  deriving DecidableEq, Repr

/-- Function `NewTestResultStore`. -/
def NewTestResultStore : ResultStore := { results := [] }

/-- Method `ResultStore.Save`. -/
def ResultStore.Save (r : ResultStore) (result : DeviceResult) : ResultStore :=
  { r with results := r.results ++ [result] }

/-- Method `ResultStore.Read`: the returned slice and the store afterwards. -/
def ResultStore.Read (r : ResultStore) : List DeviceResult × ResultStore :=
  (r.results, r)

/-! ## cmd/run.go -/

/-- Function `testsConfig`.  `loaded` is what `os.ReadFile` followed by `yaml.Unmarshal`
delivered: the error of either, or the unmarshalled struct.  `log.Fatal` is
`Except.error`. -/
def testsConfig (loaded : Except String ConfigTests) : Except String ConfigTests :=
  match loaded with
  | Except.error err => Except.error err
  | Except.ok cfgTests =>
    if cfgTests.Provider = "" then
      Except.error "no bmclib Provider defined in configuration"
    else if cfgTests.Protocol = "" then
      Except.error "no bmclib Protocol defined in configuration"
    else if !(SupportedProviders.contains cfgTests.Provider) then
      Except.error ("unsupported bmclib provider \x27" ++ cfgTests.Provider
        ++ "\x27 defined in test")
    else if cfgTests.Features.length = 0 then
      Except.error "no bmclib features to test defined in configuration"
    else
      Except.ok cfgTests

/-- Function `hardwareConfig`, with `loaded` as in `testsConfig`. -/
def hardwareConfig (loaded : Except String ConfigHardware) : Except String ConfigHardware :=
  match loaded with
  | Except.error err => Except.error err
  | Except.ok cfgHardware =>
    if cfgHardware.Devices.length = 0 then
      Except.error "no servers defined in configuration"
    else
      Except.ok cfgHardware

/-- The body of the goroutine `run` starts for `server`, up to the value it hands to
`resultStore.Save`.  `disableFilter` is the parameter of `NewTester` for which the call
in `run` passes no argument. -/
def deviceResult {σ : Type} (P : Providers) (B : Bmclib σ) (ctx : Context)
    (tests : ConfigTests) (disableFilter : Bool) (logLevel : String) (server : Device) :
    DeviceResult :=
  let tester : Tester σ :=
    NewTester server.BmcHost server.BmcUser server.BmcPass server.IpmiPort disableFilter logLevel
  let tester := (Run P B tester ctx tests).1
  { Vendor := server.Vendor
    Model := server.Model
    Name := server.Name
    BMCIP := server.BmcHost
    Results := tester.Results }

/-- The scheduler picks, among the goroutines that have not saved yet, the one whose
`Save` takes the lock next: number `k` modulo the number still pending. -/
def pickUnit (pending : List Device) (k : Nat) : Option (Device × List Device) :=
  match pending.drop (k % pending.length) with
  | [] => none
  | server :: after => some (server, pending.take (k % pending.length) ++ after)

/-- The goroutines of `run` until `wg.Wait()` returns.  `counter` is the wait group's
counter (one `wg.Add(1)` per device); every step one pending goroutine, chosen by the
scheduler, saves its result and calls `wg.Done()`. -/
def wgWait (unit : Device → DeviceResult) :
    Nat → List Device → List Nat → ResultStore → ResultStore
  | 0, _, _, resultStore => resultStore
  | counter + 1, pending, schedule, resultStore =>
    match pickUnit pending (schedule.headD 0) with
    | none => resultStore
    | some (server, others) =>
      wgWait unit counter others schedule.tail (resultStore.Save (unit server))

/-- Function `run`, up to the value it prints as `results`.  `schedule` is the order in
which the scheduler lets the goroutines reach `Save`. -/
def run {σ : Type} (P : Providers) (B : Bmclib σ) (ctx : Context) (timeout : Duration)
    (logLevel : String) (disableFilter : Bool) (loadedTests : Except String ConfigTests)
    (loadedHardware : Except String ConfigHardware) (schedule : List Nat) :
    Except String (List DeviceResult) :=
  match testsConfig loadedTests with
  | Except.error err => Except.error err
  | Except.ok tests =>
    match hardwareConfig loadedHardware with
    | Except.error err => Except.error err
    | Except.ok hardware =>
      let resultStore := NewTestResultStore
      let ctx := Context.WithTimeout ctx timeout
      let resultStore :=
        wgWait (deviceResult P B ctx tests disableFilter logLevel)
          hardware.Devices.length hardware.Devices schedule resultStore
      Except.ok resultStore.Read.1

/-! ## Concrete instances, used to evaluate the definitions -/

/-- The values the five constants have in bmclib v2. -/
def bmclibProviders : Providers :=
  { FeaturePowerState := "powerstate"
    FeaturePowerSet := "powerset"
    FeatureBootDeviceSet := "bootdeviceset"
    FeatureBmcReset := "bmcreset"
    FeatureUserRead := "userread"
    distinct := by decide }

/-- State of the simulated client: the host it talks to, whether its driver list was
filtered, whether it is open, the provider that served the last operation (empty when
none did), and the reading of the clock. -/
structure SimClient where
  host : String
  filtered : Bool := false
  isOpen : Bool := false
  successful : String := ""
  clock : Duration := 0
  deriving DecidableEq, Repr

/-- A simulated bmclib: host `"unreachable"` (or any host with an empty name) refuses
the connection, host `"flaky"` opens but fails the power state query, every other host
opens and reports `"on"`; the metadata names the provider that served the last
operation; every call takes one second. -/
def simBmclib : Bmclib SimClient :=
  { NewClient := fun host _ _ _ => { host := host }
    Using := fun _ c => { c with filtered := true }
    Open := fun _ c =>
      if c.host = "unreachable" ∨ c.host = "" then
        (some "failed to open connection", { c with clock := c.clock + 1000000000 })
      else (none, { c with isOpen := true, clock := c.clock + 1000000000 })
    Close := fun _ c => (none, { c with isOpen := false, clock := c.clock + 1000000000 })
    GetMetadata := fun c =>
      { ProvidersAttempted := ["ipmitool"]
        SuccessfulProvider := c.successful }
    GetPowerState := fun _ c =>
      if c.host = "flaky" then
        (("", some "power state query failed"),
          { c with successful := "", clock := c.clock + 1000000000 })
      else (("on", none), { c with successful := "ipmitool", clock := c.clock + 1000000000 })
    Now := fun c => c.clock
    DurationString := fun d => toString (d / 1000000000) ++ "s" }

/-! ## Auxiliary notions used in the statements -/

/-- Keys of the registry. -/
def registryKeys {σ : Type} (P : Providers) (B : Bmclib σ) : List String :=
  (registry P B).map Prod.fst

/-- Results the test loop of `Run` appends, in order. -/
def loopResults {σ : Type} (B : Bmclib σ) (ctx : Context) (protocol : String) :
    List (test σ) → σ → List Result
  | [], _ => []
  | tst :: rest, client =>
    (runOne B ctx protocol tst client).1 ::
      loopResults B ctx protocol rest (runOne B ctx protocol tst client).2.1

/-- Calls the test loop of `Run` makes, in order. -/
def loopEvents {σ : Type} (B : Bmclib σ) (ctx : Context) (protocol : String) :
    List (test σ) → σ → List Event
  | [], _ => []
  | tst :: rest, client =>
    (runOne B ctx protocol tst client).2.2 ++
      loopEvents B ctx protocol rest (runOne B ctx protocol tst client).2.1

/-- The result `Run` records for every test when `client.Open` failed with `err`. -/
def openFailedResult (protocol err : String) (providersAttempted : List String)
    (feature : String) : Result :=
  { Feature := feature
    Protocol := protocol
    ProvidersAttempted := providersAttempted
    SuccessfulProvider := ""
    Output := ""
    Error := err
    Succeeded := false
    Runtime := "" }

/-- The log line `Run` writes after `initTester`. -/
def initLog (err : GoError) : List Event :=
  match err with
  | some e => [Event.LogError e "tester init error"]
  | none => []

/-- The context `Run` builds for `client.Close`. -/
def ctxClose : Context := Context.WithTimeout Context.Background (Minute * 1)

/-- The `DeviceResult` the run command is to report for `server`: its identification and
the result list of the tester built for it. -/
def expectedDeviceResult {σ : Type} (P : Providers) (B : Bmclib σ) (ctx : Context)
    (tests : ConfigTests) (disableFilter : Bool) (logLevel : String) (d : Device) :
    DeviceResult :=
  { Vendor := d.Vendor
    Model := d.Model
    Name := d.Name
    BMCIP := d.BmcHost
    Results := (Run P B
      (NewTester d.BmcHost d.BmcUser d.BmcPass d.IpmiPort disableFilter logLevel)
      ctx tests).1.Results }

/-- Feature `k` is registered and its procedure does nothing: for every client and every
context it returns the empty output and no error, and leaves the client as it is. -/
def NoopFeature (P : Providers) (k : String) : Prop :=
  ∀ (σ : Type) (B : Bmclib σ), ∃ proc, (registry P B).lookup k = some proc ∧
    ∀ (ctx : Context) (conn : σ), proc ctx conn = (("", none), conn)

/-- Exactly `n` of the registered features are no-ops. -/
def noopCount (P : Providers) (n : Nat) : Prop :=
  ∃ ks : List String, ks.Nodup ∧ ks.length = n ∧ ∀ k, k ∈ ks ↔ NoopFeature P k

/-- A tests configuration used to evaluate the definitions. -/
def sampleTests : ConfigTests :=
  { Protocol := "ipmi", Provider := "ipmitool", Features := ["powerstate", "bmcreset"] }

/-- A tests configuration with a feature name that is not registered. -/
def unknownFeatureTests : ConfigTests :=
  { Protocol := "ipmi", Provider := "ipmitool", Features := ["powerstate", "nosuchfeature"] }

/-- An inventory of three devices used to evaluate the definitions. -/
def sampleHardware : ConfigHardware :=
  { Devices :=
      [ { Name := "node1", Vendor := "dell", Model := "r640", BmcHost := "10.0.0.1",
          BmcUser := "admin", BmcPass := "secret", IpmiPort := "623" },
        { Name := "node2", Vendor := "hp", Model := "dl360", BmcHost := "unreachable",
          BmcUser := "admin", BmcPass := "secret", IpmiPort := "623" },
        { Name := "node3", Vendor := "smc", Model := "x11", BmcHost := "flaky",
          BmcUser := "admin", BmcPass := "secret", IpmiPort := "623" } ] }

/-- Calls to a test procedure. -/
def Event.isTestFunc : Event → Bool
  | Event.TestFunc _ _ => true
  | _ => false

/-- Calls to `client.Open`, `client.Close` or a test procedure. -/
def Event.onClient : Event → Bool
  | Event.Open _ => true
  | Event.TestFunc _ _ => true
  | Event.Close _ => true
  | _ => false

/-- Calls to `client.Close`. -/
def Event.isClose : Event → Bool
  | Event.Close _ => true
  | _ => false

/-- Calls to `client.Open`. -/
def Event.isOpen : Event → Bool
  | Event.Open _ => true
  | _ => false

/-! ## Lemmas on the registry and on `initTester` -/

theorem lookup_of_mem_keys {β : Type} (reg : List (String × β)) (k : String)
    (h : k ∈ reg.map Prod.fst) : ∃ v, reg.lookup k = some v := by
  induction reg with
  | nil => simp at h
  | cons p rest ih =>
    obtain ⟨a, b⟩ := p
    by_cases hk : k = a
    · subst hk
      exact ⟨b, by simp [List.lookup]⟩
    · have hmem : k ∈ rest.map Prod.fst := by
        simp only [List.map_cons, List.mem_cons] at h
        rcases h with h | h
        · exact absurd h hk
        · exact h
      obtain ⟨v, hv⟩ := ih hmem
      refine ⟨v, ?_⟩
      have hne : (k == a) = false := by simpa using hk
      simp [List.lookup, hne, hv]

theorem lookup_of_not_mem_keys {β : Type} (reg : List (String × β)) (k : String)
    (h : k ∉ reg.map Prod.fst) : reg.lookup k = none := by
  induction reg with
  | nil => rfl
  | cons p rest ih =>
    obtain ⟨a, b⟩ := p
    simp only [List.map_cons, List.mem_cons, not_or] at h
    have hne : (k == a) = false := by simpa using h.1
    simp [List.lookup, hne, ih h.2]

theorem initTesterLoop_ok {σ : Type} (reg : List (String × testFunc σ)) :
    ∀ (fs : List String) (acc : List (test σ)), (∀ f ∈ fs, f ∈ reg.map Prod.fst) →
      ∃ ts, initTesterLoop reg fs acc = Except.ok (acc ++ ts) ∧
        List.Forall₂ (fun f tst => tst.Feature = f ∧ reg.lookup f = some tst.TestFunc) fs ts := by
  intro fs
  induction fs with
  | nil =>
    intro acc _
    exact ⟨[], by simp [initTesterLoop], List.Forall₂.nil⟩
  | cons f rest ih =>
    intro acc h
    obtain ⟨g, hg⟩ := lookup_of_mem_keys reg f (h f (List.mem_cons_self _ _))
    obtain ⟨ts, hts, hall⟩ :=
      ih (acc ++ [{ Feature := f, TestFunc := g }]) (fun x hx => h x (List.mem_cons_of_mem _ hx))
    refine ⟨{ Feature := f, TestFunc := g } :: ts, ?_, List.Forall₂.cons ⟨rfl, hg⟩ hall⟩
    simp only [initTesterLoop, hg, hts, List.append_assoc, List.singleton_append]

theorem initTesterLoop_error {σ : Type} (reg : List (String × testFunc σ)) :
    ∀ (fs : List String) (acc : List (test σ)), (¬ ∀ f ∈ fs, f ∈ reg.map Prod.fst) →
      ∃ pre f post, fs = pre ++ f :: post ∧ (∀ g ∈ pre, g ∈ reg.map Prod.fst) ∧
        f ∉ reg.map Prod.fst ∧
        initTesterLoop reg fs acc =
          Except.error ("unknown bmclib feature defined in test: " ++ f) := by
  intro fs
  induction fs with
  | nil =>
    intro acc h
    exact absurd (fun f hf => absurd hf (List.not_mem_nil f)) h
  | cons f rest ih =>
    intro acc h
    by_cases hf : f ∈ reg.map Prod.fst
    · obtain ⟨g, hg⟩ := lookup_of_mem_keys reg f hf
      have hrest : ¬ ∀ x ∈ rest, x ∈ reg.map Prod.fst := by
        intro hall
        apply h
        intro x hx
        rcases List.mem_cons.mp hx with hx | hx
        · exact hx ▸ hf
        · exact hall x hx
      obtain ⟨pre, x, post, hsplit, hpre, hx, herr⟩ :=
        ih (acc ++ [{ Feature := f, TestFunc := g }]) hrest
      refine ⟨f :: pre, x, post, by simp [hsplit], ?_, hx, ?_⟩
      · intro y hy
        rcases List.mem_cons.mp hy with hy | hy
        · exact hy ▸ hf
        · exact hpre y hy
      · simp only [initTesterLoop, hg, herr]
    · refine ⟨[], f, rest, rfl, fun g hg => absurd hg (List.not_mem_nil g), hf, ?_⟩
      simp only [initTesterLoop, lookup_of_not_mem_keys reg f hf]

theorem forall₂_map_feature {σ : Type} (reg : List (String × testFunc σ))
    (fs : List String) (ts : List (test σ))
    (h : List.Forall₂ (fun f tst => tst.Feature = f ∧ reg.lookup f = some tst.TestFunc) fs ts) :
    ts.map (fun tst => tst.Feature) = fs := by
  induction h with
  | nil => rfl
  | cons hd _ ih => simp [hd.1, ih]

/-! ## Lemmas on `Run` -/

theorem initTester_snd_results {σ : Type} (P : Providers) (B : Bmclib σ) (t : Tester σ)
    (ctx : Context) (cfg : ConfigTests) : (initTester P B t ctx cfg).2.results = t.results := by
  unfold initTester
  split <;> rfl

theorem newBmclibClient_initTester {σ : Type} (P : Providers) (B : Bmclib σ) (t : Tester σ)
    (ctx : Context) (cfg : ConfigTests) (provider protocol : String) :
    newBmclibClient B (initTester P B t ctx cfg).2 provider protocol
      = newBmclibClient B t provider protocol := by
  unfold initTester
  split <;> rfl

theorem openFailedLoop_eq {σ : Type} (B : Bmclib σ) (protocol err : String) (client : σ) :
    ∀ (ts : List (test σ)) (rs : List Result),
      openFailedLoop B protocol err client ts rs
        = rs ++ ts.map (fun tst =>
            openFailedResult protocol err (B.GetMetadata client).ProvidersAttempted tst.Feature) := by
  intro ts
  induction ts with
  | nil => intro rs; simp [openFailedLoop]
  | cons tst rest ih =>
    intro rs
    simp only [openFailedLoop, ih, List.map_cons, List.append_assoc, List.singleton_append]
    rfl

theorem runLoop_eq {σ : Type} (B : Bmclib σ) (ctx : Context) (protocol : String) :
    ∀ (ts : List (test σ)) (c : σ) (rs : List Result) (tr : List Event),
      (runLoop B ctx protocol ts c rs tr).1 = rs ++ loopResults B ctx protocol ts c ∧
      (runLoop B ctx protocol ts c rs tr).2.2 = tr ++ loopEvents B ctx protocol ts c := by
  intro ts
  induction ts with
  | nil => intro c rs tr; simp [runLoop, loopResults, loopEvents]
  | cons tst rest ih =>
    intro c rs tr
    simp only [runLoop, loopResults, loopEvents, ih, List.append_assoc, List.singleton_append,
      and_self]

theorem runOne_fst {σ : Type} (B : Bmclib σ) (ctx : Context) (protocol : String)
    (tst : test σ) (c : σ) :
    (runOne B ctx protocol tst c).1 =
      { Feature := tst.Feature
        Protocol := protocol
        ProvidersAttempted := []
        SuccessfulProvider := (B.GetMetadata (tst.TestFunc ctx c).2).SuccessfulProvider
        Output := (tst.TestFunc ctx c).1.1
        Error := ((tst.TestFunc ctx c).1.2).getD ""
        Succeeded := ((tst.TestFunc ctx c).1.2).isNone
        Runtime := B.DurationString (B.Now (tst.TestFunc ctx c).2 - B.Now c) } := by
  unfold runOne
  cases h : (tst.TestFunc ctx c).1.2 <;> simp [h]

theorem runOne_client {σ : Type} (B : Bmclib σ) (ctx : Context) (protocol : String)
    (tst : test σ) (c : σ) : (runOne B ctx protocol tst c).2.1 = (tst.TestFunc ctx c).2 := rfl

theorem runOne_events {σ : Type} (B : Bmclib σ) (ctx : Context) (protocol : String)
    (tst : test σ) (c : σ) :
    (runOne B ctx protocol tst c).2.2.filter Event.onClient = [Event.TestFunc tst.Feature ctx] := by
  unfold runOne
  cases h : (tst.TestFunc ctx c).1.2 <;> simp [h, Event.onClient]

theorem loopResults_map_feature {σ : Type} (B : Bmclib σ) (ctx : Context) (protocol : String) :
    ∀ (ts : List (test σ)) (c : σ),
      (loopResults B ctx protocol ts c).map (fun r => r.Feature)
        = ts.map (fun tst => tst.Feature) := by
  intro ts
  induction ts with
  | nil => intro c; rfl
  | cons tst rest ih =>
    intro c
    simp only [loopResults, List.map_cons, ih, runOne_fst]

theorem loopEvents_onClient {σ : Type} (B : Bmclib σ) (ctx : Context) (protocol : String) :
    ∀ (ts : List (test σ)) (c : σ),
      (loopEvents B ctx protocol ts c).filter Event.onClient
        = ts.map (fun tst => Event.TestFunc tst.Feature ctx) := by
  intro ts
  induction ts with
  | nil => intro c; rfl
  | cons tst rest ih =>
    intro c
    simp only [loopEvents, List.filter_append, runOne_events, ih, List.map_cons,
      List.singleton_append]

theorem Run_open_error {σ : Type} (P : Providers) (B : Bmclib σ) (t : Tester σ)
    (ctx : Context) (cfg : ConfigTests) (e : String)
    (h : (B.Open ctx (newBmclibClient B t cfg.Provider cfg.Protocol)).1 = some e) :
    (Run P B t ctx cfg).1.results
        = t.results ++ (initTester P B t ctx cfg).2.tests.map (fun tst =>
            openFailedResult cfg.Protocol e
              (B.GetMetadata (B.Open ctx (newBmclibClient B t cfg.Provider cfg.Protocol)).2
                ).ProvidersAttempted tst.Feature) ∧
      (Run P B t ctx cfg).2.2 = initLog (initTester P B t ctx cfg).1 ++ [Event.Open ctx] := by
  have h1 := newBmclibClient_initTester P B t ctx cfg cfg.Provider cfg.Protocol
  simp only [Run, h1, h, openFailedLoop_eq, initTester_snd_results, initLog, true_and]

theorem Run_open_ok {σ : Type} (P : Providers) (B : Bmclib σ) (t : Tester σ)
    (ctx : Context) (cfg : ConfigTests)
    (h : (B.Open ctx (newBmclibClient B t cfg.Provider cfg.Protocol)).1 = none) :
    (Run P B t ctx cfg).1.results
        = t.results ++ loopResults B ctx cfg.Protocol (initTester P B t ctx cfg).2.tests
            (B.Open ctx (newBmclibClient B t cfg.Provider cfg.Protocol)).2 ∧
      (Run P B t ctx cfg).2.2
        = initLog (initTester P B t ctx cfg).1 ++ [Event.Open ctx]
            ++ loopEvents B ctx cfg.Protocol (initTester P B t ctx cfg).2.tests
                (B.Open ctx (newBmclibClient B t cfg.Provider cfg.Protocol)).2
            ++ [Event.Close ctxClose, Event.Cancel ctxClose] := by
  have h1 := newBmclibClient_initTester P B t ctx cfg cfg.Provider cfg.Protocol
  simp only [Run, h1, h, runLoop_eq, initTester_snd_results, initLog, ctxClose, true_and]

theorem initTester_ok {σ : Type} (P : Providers) (B : Bmclib σ) (t : Tester σ)
    (ctx : Context) (cfg : ConfigTests) (h : ∀ f ∈ cfg.Features, f ∈ registryKeys P B) :
    ∃ ts, initTester P B t ctx cfg = (none, { t with tests := ts }) ∧
      List.Forall₂ (fun f tst => tst.Feature = f ∧ (registry P B).lookup f = some tst.TestFunc)
        cfg.Features ts := by
  obtain ⟨ts, hts, hall⟩ := initTesterLoop_ok (registry P B) cfg.Features [] h
  refine ⟨ts, ?_, hall⟩
  simp only [initTester, hts, List.nil_append]

theorem initTester_unknown {σ : Type} (P : Providers) (B : Bmclib σ) (t : Tester σ)
    (ctx : Context) (cfg : ConfigTests) (h : ¬ ∀ f ∈ cfg.Features, f ∈ registryKeys P B) :
    ∃ pre f post, cfg.Features = pre ++ f :: post ∧ (∀ g ∈ pre, g ∈ registryKeys P B) ∧
      f ∉ registryKeys P B ∧
      initTester P B t ctx cfg
        = (some ("unknown bmclib feature defined in test: " ++ f), t) := by
  obtain ⟨pre, f, post, hsplit, hpre, hf, herr⟩ :=
    initTesterLoop_error (registry P B) cfg.Features [] h
  refine ⟨pre, f, post, hsplit, hpre, hf, ?_⟩
  simp only [initTester, herr]

theorem Run_features_of_resolving {σ : Type} (P : Providers) (B : Bmclib σ) (t : Tester σ)
    (ctx : Context) (cfg : ConfigTests) (ht : t.results = [])
    (hres : ∀ f ∈ cfg.Features, f ∈ registryKeys P B) :
    (Run P B t ctx cfg).1.results.map (fun r => r.Feature) = cfg.Features := by
  obtain ⟨ts, hts, hall⟩ := initTester_ok P B t ctx cfg hres
  have hfs := forall₂_map_feature _ _ _ hall
  cases hopen : (B.Open ctx (newBmclibClient B t cfg.Provider cfg.Protocol)).1 with
  | some e =>
    rw [(Run_open_error P B t ctx cfg e hopen).1, ht, hts, List.nil_append, List.map_map,
      ← hfs]
    rfl
  | none =>
    rw [(Run_open_ok P B t ctx cfg hopen).1, ht, hts, List.nil_append,
      loopResults_map_feature]
    exact hfs

theorem Run_results_of_open_error {σ : Type} (P : Providers) (B : Bmclib σ) (t : Tester σ)
    (ctx : Context) (cfg : ConfigTests) (e : String) (ht : t.results = [])
    (hres : ∀ f ∈ cfg.Features, f ∈ registryKeys P B)
    (hopen : (B.Open ctx (newBmclibClient B t cfg.Provider cfg.Protocol)).1 = some e) :
    (Run P B t ctx cfg).1.results = cfg.Features.map (openFailedResult cfg.Protocol e
        (B.GetMetadata (B.Open ctx (newBmclibClient B t cfg.Provider cfg.Protocol)).2
          ).ProvidersAttempted) ∧
      (Run P B t ctx cfg).2.2 = [Event.Open ctx] := by
  obtain ⟨ts, hts, hall⟩ := initTester_ok P B t ctx cfg hres
  have hfs := forall₂_map_feature _ _ _ hall
  obtain ⟨hr, htr⟩ := Run_open_error P B t ctx cfg e hopen
  constructor
  · rw [hr, ht, hts, List.nil_append, ← hfs, List.map_map]
    rfl
  · rw [htr, hts]
    rfl

theorem Run_of_unknown {σ : Type} (P : Providers) (B : Bmclib σ) (t : Tester σ)
    (ctx : Context) (cfg : ConfigTests) (ht : t.results = []) (htests : t.tests = [])
    (hbad : ¬ ∀ f ∈ cfg.Features, f ∈ registryKeys P B) :
    (Run P B t ctx cfg).1.results = [] ∧
      ∃ f, f ∈ cfg.Features ∧ f ∉ registryKeys P B ∧
        ((Run P B t ctx cfg).2.2
          = [Event.LogError ("unknown bmclib feature defined in test: " ++ f)
              "tester init error", Event.Open ctx] ∨
         (Run P B t ctx cfg).2.2
          = [Event.LogError ("unknown bmclib feature defined in test: " ++ f)
              "tester init error", Event.Open ctx, Event.Close ctxClose,
              Event.Cancel ctxClose]) := by
  obtain ⟨pre, f, post, hsplit, _, hf, herr⟩ := initTester_unknown P B t ctx cfg hbad
  have hmem : f ∈ cfg.Features := by simp [hsplit]
  cases hopen : (B.Open ctx (newBmclibClient B t cfg.Provider cfg.Protocol)).1 with
  | some e =>
    obtain ⟨hr, htr⟩ := Run_open_error P B t ctx cfg e hopen
    refine ⟨?_, f, hmem, hf, Or.inl ?_⟩
    · rw [hr, ht, herr, htests]
      rfl
    · rw [htr, herr]
      rfl
  | none =>
    obtain ⟨hr, htr⟩ := Run_open_ok P B t ctx cfg hopen
    refine ⟨?_, f, hmem, hf, Or.inr ?_⟩
    · rw [hr, ht, herr, htests]
      rfl
    · rw [htr, herr, htests]
      rfl

theorem pickUnit_some (pending : List Device) (k : Nat) (h : pending ≠ []) :
    ∃ server others, pickUnit pending k = some (server, others) ∧
      pending.Perm (server :: others) := by
  have hpos : 0 < pending.length := List.length_pos.mpr h
  have hlt : k % pending.length < pending.length := Nat.mod_lt _ hpos
  cases hd : pending.drop (k % pending.length) with
  | nil =>
    have := List.drop_eq_nil_iff.mp hd
    omega
  | cons server after =>
    refine ⟨server, pending.take (k % pending.length) ++ after, ?_, ?_⟩
    · simp only [pickUnit, hd]
    · have hsplit : pending = pending.take (k % pending.length) ++ server :: after := by
        rw [← hd, List.take_append_drop]
      conv_lhs => rw [hsplit]
      exact List.perm_middle

theorem wgWait_perm (unit : Device → DeviceResult) :
    ∀ (counter : Nat) (pending : List Device) (schedule : List Nat) (store : ResultStore),
      pending.length = counter →
      ∃ saved, (wgWait unit counter pending schedule store).results = store.results ++ saved ∧
        saved.Perm (pending.map unit) := by
  intro counter
  induction counter with
  | zero =>
    intro pending schedule store hlen
    have hnil : pending = [] := List.length_eq_zero.mp hlen
    subst hnil
    exact ⟨[], by simp [wgWait], List.Perm.refl _⟩
  | succ n ih =>
    intro pending schedule store hlen
    have hne : pending ≠ [] := by
      intro h
      rw [h] at hlen
      simp at hlen
    obtain ⟨server, others, hpick, hperm⟩ := pickUnit_some pending (schedule.headD 0) hne
    have hlen2 : others.length = n := by
      have := hperm.length_eq
      simp only [List.length_cons] at this
      omega
    obtain ⟨saved, hsaved, hp⟩ := ih others schedule.tail (store.Save (unit server)) hlen2
    refine ⟨unit server :: saved, ?_, ?_⟩
    · simp only [wgWait, hpick]
      rw [hsaved]
      simp only [ResultStore.Save, List.append_assoc, List.singleton_append]
    · have h1 : (unit server :: saved).Perm (unit server :: others.map unit) :=
        List.Perm.cons _ hp
      have h2 : (pending.map unit).Perm ((server :: others).map unit) := hperm.map unit
      exact h1.trans h2.symm

theorem mem_keys_of_lookup {β : Type} (reg : List (String × β)) (k : String) (v : β)
    (h : reg.lookup k = some v) : k ∈ reg.map Prod.fst := by
  by_contra hk
  rw [lookup_of_not_mem_keys reg k hk] at h
  exact Option.noConfusion h

theorem Providers.ne (P : Providers) :
    P.FeaturePowerState ≠ P.FeaturePowerSet ∧ P.FeaturePowerState ≠ P.FeatureBootDeviceSet ∧
    P.FeaturePowerState ≠ P.FeatureBmcReset ∧ P.FeaturePowerState ≠ P.FeatureUserRead ∧
    P.FeaturePowerSet ≠ P.FeatureBootDeviceSet ∧ P.FeaturePowerSet ≠ P.FeatureBmcReset ∧
    P.FeaturePowerSet ≠ P.FeatureUserRead ∧ P.FeatureBootDeviceSet ≠ P.FeatureBmcReset ∧
    P.FeatureBootDeviceSet ≠ P.FeatureUserRead ∧ P.FeatureBmcReset ≠ P.FeatureUserRead := by
  have h := P.distinct
  simp only [List.nodup_cons, List.mem_cons, List.mem_singleton, not_or, List.not_mem_nil,
    not_false_eq_true, List.nodup_nil, and_true] at h
  obtain ⟨⟨h1, h2, h3, h4⟩, ⟨h5, h6, h7⟩, ⟨h8, h9⟩, h10⟩ := h
  exact ⟨h1, h2, h3, h4, h5, h6, h7, h8, h9, h10⟩

theorem registry_lookup {σ : Type} (P : Providers) (B : Bmclib σ) :
    (registry P B).lookup P.FeaturePowerState = some (powerState B) ∧
    (registry P B).lookup P.FeaturePowerSet = some powerSet ∧
    (registry P B).lookup P.FeatureBootDeviceSet = some bootDeviceSet ∧
    (registry P B).lookup P.FeatureBmcReset = some bmcReset ∧
    (registry P B).lookup P.FeatureUserRead = some userRead := by
  obtain ⟨h1, h2, h3, h4, h5, h6, h7, h8, h9, h10⟩ := P.ne
  have b1 : (P.FeaturePowerSet == P.FeaturePowerState) = false := by simpa using h1.symm
  have b2 : (P.FeatureBootDeviceSet == P.FeaturePowerState) = false := by simpa using h2.symm
  have b3 : (P.FeatureBmcReset == P.FeaturePowerState) = false := by simpa using h3.symm
  have b4 : (P.FeatureUserRead == P.FeaturePowerState) = false := by simpa using h4.symm
  have b5 : (P.FeatureBootDeviceSet == P.FeaturePowerSet) = false := by simpa using h5.symm
  have b6 : (P.FeatureBmcReset == P.FeaturePowerSet) = false := by simpa using h6.symm
  have b7 : (P.FeatureUserRead == P.FeaturePowerSet) = false := by simpa using h7.symm
  have b8 : (P.FeatureBmcReset == P.FeatureBootDeviceSet) = false := by simpa using h8.symm
  have b9 : (P.FeatureUserRead == P.FeatureBootDeviceSet) = false := by simpa using h9.symm
  have b10 : (P.FeatureUserRead == P.FeatureBmcReset) = false := by simpa using h10.symm
  refine ⟨?_, ?_, ?_, ?_, ?_⟩
  · simp [registry, List.lookup]
  · simp [registry, List.lookup, b1]
  · simp [registry, List.lookup, b2, b5]
  · simp [registry, List.lookup, b3, b6, b8]
  · simp [registry, List.lookup, b4, b7, b9, b10]

theorem noopFeature_iff (P : Providers) (k : String) :
    NoopFeature P k ↔
      k ∈ [P.FeaturePowerSet, P.FeatureBootDeviceSet, P.FeatureBmcReset, P.FeatureUserRead] := by
  obtain ⟨h1, h2, h3, h4, _⟩ := P.ne
  constructor
  · intro h
    obtain ⟨proc, hproc, hnoop⟩ := h SimClient simBmclib
    have hk := mem_keys_of_lookup _ _ _ hproc
    simp only [registry, List.map_cons, List.map_nil, List.mem_cons, List.mem_singleton,
      List.not_mem_nil, or_false] at hk
    rcases hk with hk | hk | hk | hk | hk
    · exfalso
      subst hk
      rw [(registry_lookup P simBmclib).1] at hproc
      have hp : proc = powerState simBmclib := (Option.some.inj hproc).symm
      have := hnoop Context.Background { host := "10.0.0.1" }
      rw [hp] at this
      revert this
      decide
    · simp [hk]
    · simp [hk]
    · simp [hk]
    · simp [hk]
  · intro hk σ B
    obtain ⟨_, r2, r3, r4, r5⟩ := registry_lookup P B
    simp only [List.mem_cons, List.mem_singleton, List.not_mem_nil, or_false] at hk
    rcases hk with hk | hk | hk | hk
    · exact ⟨powerSet, hk ▸ r2, fun _ _ => rfl⟩
    · exact ⟨bootDeviceSet, hk ▸ r3, fun _ _ => rfl⟩
    · exact ⟨bmcReset, hk ▸ r4, fun _ _ => rfl⟩
    · exact ⟨userRead, hk ▸ r5, fun _ _ => rfl⟩

theorem noop_keys_nodup (P : Providers) :
    [P.FeaturePowerSet, P.FeatureBootDeviceSet, P.FeatureBmcReset, P.FeatureUserRead].Nodup :=
  (List.nodup_cons.mp P.distinct).2

theorem noopCount_four (P : Providers) : noopCount P 4 :=
  ⟨_, noop_keys_nodup P, rfl, fun k => (noopFeature_iff P k).symm⟩

theorem noopCount_unique (P : Providers) (n : Nat) (h : noopCount P n) : n = 4 := by
  obtain ⟨ks, hnd, hlen, hiff⟩ := h
  have hperm : ks.Perm
      [P.FeaturePowerSet, P.FeatureBootDeviceSet, P.FeatureBmcReset, P.FeatureUserRead] :=
    (List.perm_ext_iff_of_nodup hnd (noop_keys_nodup P)).mpr
      (fun k => (hiff k).trans (noopFeature_iff P k))
  have := hperm.length_eq
  rw [hlen] at this
  simpa using this

theorem initLog_onClient (err : GoError) : (initLog err).filter Event.onClient = [] := by
  cases err <;> rfl

/-- C1. After `Run` on a newly constructed tester, with a configuration whose feature
names are all keys of the registry, the result list has one entry per configured
feature and the features of the entries are the configured names, in the same order.
Nothing is assumed on the outcome of `client.Open` or of the test procedures. -/
theorem Run_one_result_per_feature {σ : Type} (P : Providers) (B : Bmclib σ)
    (bmcHost bmcUser bmcPass bmcPort : String) (disableFilter : Bool) (logLevel : String)
    (ctx : Context) (cfg : ConfigTests)
    (hres : ∀ f ∈ cfg.Features, f ∈ registryKeys P B) :
    (Run P B (NewTester bmcHost bmcUser bmcPass bmcPort disableFilter logLevel) ctx cfg
        ).1.Results.length = cfg.Features.length ∧
      (Run P B (NewTester bmcHost bmcUser bmcPass bmcPort disableFilter logLevel) ctx cfg
        ).1.Results.map (fun r => r.Feature) = cfg.Features := by
  have key := Run_features_of_resolving P B
    (NewTester bmcHost bmcUser bmcPass bmcPort disableFilter logLevel) ctx cfg rfl hres
  refine ⟨?_, key⟩
  have hlen := congrArg List.length key
  rw [List.length_map] at hlen
  exact hlen

/-- C2. When `client.Open` returns an error with message `e` (newly constructed tester,
all features resolving), `Run` calls no test procedure and records one result per
configured feature, each with `Succeeded = false`, `Output = ""`, `Error = e` (so a
non-empty text whenever the error's text is non-empty), the configured protocol and the
`ProvidersAttempted` of the client's metadata. -/
theorem Run_open_failed_results {σ : Type} (P : Providers) (B : Bmclib σ)
    (bmcHost bmcUser bmcPass bmcPort : String) (disableFilter : Bool) (logLevel : String)
    (ctx : Context) (cfg : ConfigTests) (e : String)
    (hres : ∀ f ∈ cfg.Features, f ∈ registryKeys P B)
    (hopen : (B.Open ctx (newBmclibClient B
      (NewTester bmcHost bmcUser bmcPass bmcPort disableFilter logLevel)
      cfg.Provider cfg.Protocol)).1 = some e) :
    (Run P B (NewTester bmcHost bmcUser bmcPass bmcPort disableFilter logLevel) ctx cfg
        ).2.2.filter Event.isTestFunc = [] ∧
      (Run P B (NewTester bmcHost bmcUser bmcPass bmcPort disableFilter logLevel) ctx cfg
        ).1.Results.length = cfg.Features.length ∧
      (∀ r ∈ (Run P B (NewTester bmcHost bmcUser bmcPass bmcPort disableFilter logLevel) ctx cfg
          ).1.Results,
        r.Succeeded = false ∧ r.Output = "" ∧ r.Error = e ∧ (e ≠ "" → r.Error ≠ "") ∧
        r.Protocol = cfg.Protocol ∧
        r.ProvidersAttempted = (B.GetMetadata (B.Open ctx (newBmclibClient B
          (NewTester bmcHost bmcUser bmcPass bmcPort disableFilter logLevel)
          cfg.Provider cfg.Protocol)).2).ProvidersAttempted) ∧
      (Run P B (NewTester bmcHost bmcUser bmcPass bmcPort disableFilter logLevel) ctx cfg
        ).1.Results = cfg.Features.map (openFailedResult cfg.Protocol e
          (B.GetMetadata (B.Open ctx (newBmclibClient B
            (NewTester bmcHost bmcUser bmcPass bmcPort disableFilter logLevel)
            cfg.Provider cfg.Protocol)).2).ProvidersAttempted) := by
  obtain ⟨hlist, htr⟩ := Run_results_of_open_error P B
    (NewTester bmcHost bmcUser bmcPass bmcPort disableFilter logLevel) ctx cfg e rfl hres hopen
  refine ⟨?_, ?_, ?_, hlist⟩
  · rw [htr]
    rfl
  · show (Run P B _ ctx cfg).1.results.length = _
    rw [hlist, List.length_map]
  · intro r hr
    have hr2 : r ∈ (Run P B (NewTester bmcHost bmcUser bmcPass bmcPort disableFilter logLevel)
        ctx cfg).1.results := hr
    rw [hlist] at hr2
    obtain ⟨f, _, rfl⟩ := List.mem_map.mp hr2
    exact ⟨rfl, rfl, rfl, fun h => h, rfl, rfl⟩

/-- C5. When the two loaders accept the configuration, the run command produces a
result sequence, whatever the order in which the scheduler lets the devices goroutines
save: it has as many entries as the inventory has devices, and it is a permutation of
the inventory mapped to `DeviceResult` (vendor, model, name, BMC host and the result list
of the tester built for that device). -/
theorem run_one_result_per_device {σ : Type} (P : Providers) (B : Bmclib σ) (ctx : Context)
    (timeout : Duration) (logLevel : String) (disableFilter : Bool)
    (loadedTests : Except String ConfigTests) (loadedHardware : Except String ConfigHardware)
    (tests : ConfigTests) (hardware : ConfigHardware) (schedule : List Nat)
    (ht : testsConfig loadedTests = Except.ok tests)
    (hh : hardwareConfig loadedHardware = Except.ok hardware) :
    ∃ results,
      run P B ctx timeout logLevel disableFilter loadedTests loadedHardware schedule
        = Except.ok results ∧
      results.length = hardware.Devices.length ∧
      results.Perm (hardware.Devices.map
        (expectedDeviceResult P B (Context.WithTimeout ctx timeout) tests disableFilter
          logLevel)) := by
  obtain ⟨saved, hsaved, hperm⟩ :=
    wgWait_perm (deviceResult P B (Context.WithTimeout ctx timeout) tests disableFilter logLevel)
      hardware.Devices.length hardware.Devices schedule NewTestResultStore rfl
  refine ⟨saved, ?_, ?_, ?_⟩
  · simp only [run, ht, hh, ResultStore.Read]
    rw [hsaved]
    rfl
  · have := hperm.length_eq
    simpa using this
  · exact hperm

/-- C6. The result store is append-only.  Starting from `NewTestResultStore`, after the
`Save` calls of any list `saves` (the order in which the lock serialised them), `Read`
returns exactly that list, so as many entries as there were calls, none lost, repeated
or changed.  A `Save` keeps the entries already stored and adds its argument at the
end, and `Read` leaves the store as it was. -/
theorem ResultStore_append_only (saves : List DeviceResult) :
    (saves.foldl ResultStore.Save NewTestResultStore).Read.1 = saves ∧
      (saves.foldl ResultStore.Save NewTestResultStore).Read.1.length = saves.length ∧
      (∀ (r : ResultStore) (x : DeviceResult), (r.Save x).Read.1 = r.Read.1 ++ [x]) ∧
      (∀ r : ResultStore, r.Read.2 = r) ∧
      NewTestResultStore.Read.1 = [] := by
  have key : ∀ (xs : List DeviceResult) (r : ResultStore),
      (xs.foldl ResultStore.Save r).results = r.results ++ xs := by
    intro xs
    induction xs with
    | nil => intro r; simp
    | cons x rest ih =>
      intro r
      simp only [List.foldl_cons, ih, ResultStore.Save, List.append_assoc,
        List.singleton_append]
  have h1 : (saves.foldl ResultStore.Save NewTestResultStore).Read.1 = saves := by
    simp only [ResultStore.Read, key, NewTestResultStore, List.nil_append]
  exact ⟨h1, by rw [h1], fun _ _ => rfl, fun _ => rfl, rfl⟩

/-- C4. `initTester` keeps the order and is all-or-nothing.  If every configured name is
a key of the registry it returns no error and sets `tests` to one test per name, in the
order of the names, each with that name and the procedure the registry holds for it
(the other fields of the tester stay as they were).  Otherwise it returns the error
`unknown bmclib feature defined in test: ` followed by the first name that is not a key,
and the tester, its test list included, is the one it was called on. -/
theorem initTester_all_or_nothing {σ : Type} (P : Providers) (B : Bmclib σ) (t : Tester σ)
    (ctx : Context) (cfg : ConfigTests) :
    ((∀ f ∈ cfg.Features, f ∈ registryKeys P B) →
      ∃ ts, initTester P B t ctx cfg = (none, { t with tests := ts }) ∧
        ts.length = cfg.Features.length ∧
        List.Forall₂
          (fun f tst => tst.Feature = f ∧ (registry P B).lookup f = some tst.TestFunc)
          cfg.Features ts) ∧
    ((¬ ∀ f ∈ cfg.Features, f ∈ registryKeys P B) →
      ∃ pre f post, cfg.Features = pre ++ f :: post ∧ (∀ g ∈ pre, g ∈ registryKeys P B) ∧
        f ∉ registryKeys P B ∧
        initTester P B t ctx cfg
          = (some ("unknown bmclib feature defined in test: " ++ f), t)) := by
  constructor
  · intro h
    obtain ⟨ts, hts, hall⟩ := initTester_ok P B t ctx cfg h
    exact ⟨ts, hts, hall.length_eq.symm, hall⟩
  · intro h
    exact initTester_unknown P B t ctx cfg h

/-- C9. With a configuration that has a feature name outside the registry, `Run` on a
newly constructed tester returns (it is a total function; the error of `initTester` is
only logged), calls no test procedure and leaves the result list empty: the calls it
makes are the log of the error, `client.Open` and, when the open succeeded, the deferred
`client.Close` and `cancel`. -/
theorem Run_unknown_feature {σ : Type} (P : Providers) (B : Bmclib σ)
    (bmcHost bmcUser bmcPass bmcPort : String) (disableFilter : Bool) (logLevel : String)
    (ctx : Context) (cfg : ConfigTests)
    (hbad : ¬ ∀ f ∈ cfg.Features, f ∈ registryKeys P B) :
    (Run P B (NewTester bmcHost bmcUser bmcPass bmcPort disableFilter logLevel) ctx cfg
        ).1.Results = [] ∧
      (Run P B (NewTester bmcHost bmcUser bmcPass bmcPort disableFilter logLevel) ctx cfg
        ).2.2.filter Event.isTestFunc = [] ∧
      ∃ f, f ∈ cfg.Features ∧ f ∉ registryKeys P B ∧
        ((Run P B (NewTester bmcHost bmcUser bmcPass bmcPort disableFilter logLevel) ctx cfg
            ).2.2
          = [Event.LogError ("unknown bmclib feature defined in test: " ++ f)
              "tester init error", Event.Open ctx] ∨
         (Run P B (NewTester bmcHost bmcUser bmcPass bmcPort disableFilter logLevel) ctx cfg
            ).2.2
          = [Event.LogError ("unknown bmclib feature defined in test: " ++ f)
              "tester init error", Event.Open ctx, Event.Close ctxClose,
              Event.Cancel ctxClose]) := by
  obtain ⟨hr, f, hmem, hf, htr⟩ := Run_of_unknown P B
    (NewTester bmcHost bmcUser bmcPass bmcPort disableFilter logLevel) ctx cfg rfl rfl hbad
  refine ⟨hr, ?_, f, hmem, hf, htr⟩
  rcases htr with h | h <;> rw [h] <;> rfl

/-- C7, as the code has it.  `Run` calls `client.Close` exactly when `client.Open`
succeeded.  After a successful open the calls on the client are `Open`, then the test
procedures in order, then one `Close`, and the context of that `Close` is
`context.WithTimeout(context.Background(), time.Minute*1)` whatever context `Run` was
given.  After a failed open the only call on the client is the `Open`: `Run` returns
before the `Close` is deferred. -/
theorem Run_close_after_successful_open {σ : Type} (P : Providers) (B : Bmclib σ)
    (t : Tester σ) (ctx : Context) (cfg : ConfigTests) :
    ((B.Open ctx (newBmclibClient B t cfg.Provider cfg.Protocol)).1 = none →
      (Run P B t ctx cfg).2.2.filter Event.onClient
        = Event.Open ctx ::
            ((initTester P B t ctx cfg).2.tests.map (fun tst => Event.TestFunc tst.Feature ctx)
              ++ [Event.Close (Context.WithTimeout Context.Background (Minute * 1))])) ∧
    (∀ e, (B.Open ctx (newBmclibClient B t cfg.Provider cfg.Protocol)).1 = some e →
      (Run P B t ctx cfg).2.2.filter Event.onClient = [Event.Open ctx]) := by
  constructor
  · intro hopen
    rw [(Run_open_ok P B t ctx cfg hopen).2]
    simp only [List.filter_append, initLog_onClient, loopEvents_onClient, List.nil_append]
    rfl
  · intro e hopen
    rw [(Run_open_error P B t ctx cfg e hopen).2]
    simp only [List.filter_append, initLog_onClient, List.nil_append]
    rfl

/-- C7 fails when the open fails: on the simulated host that refuses the connection,
`Run` calls `client.Open` and returns without any call of `client.Close`. -/
theorem Run_open_failed_no_close :
    (Run bmclibProviders simBmclib (NewTester "unreachable" "admin" "secret" "623" false "info")
        (Context.WithTimeout Context.Background Minute) sampleTests).2.2
      = [Event.Open (Context.WithTimeout Context.Background Minute)] ∧
    (Run bmclibProviders simBmclib (NewTester "unreachable" "admin" "secret" "623" false "info")
        (Context.WithTimeout Context.Background Minute) sampleTests).2.2.any Event.isOpen
      = true ∧
    (Run bmclibProviders simBmclib (NewTester "unreachable" "admin" "secret" "623" false "info")
        (Context.WithTimeout Context.Background Minute) sampleTests).2.2.any Event.isClose
      = false := by
  decide

/-- C8, as the code has it.  A configuration that `testsConfig` accepts is returned
unchanged and has a non-empty provider that is one of `ipmitool`, `gofish`, a non-empty
protocol and a non-empty feature list.  A configuration failing one of these is fatal:
`testsConfig` ends with an error, and `run` ends with that error without building a
tester.  A configuration that meets them and whose protocol is one of `ipmi`, `redfish`
is accepted; feature names are not looked up in the registry here. -/
theorem testsConfig_accepted_invariant (cfg : ConfigTests) :
    (∀ out, testsConfig (Except.ok cfg) = Except.ok out →
      out = cfg ∧ cfg.Provider ≠ "" ∧ (cfg.Provider = "ipmitool" ∨ cfg.Provider = "gofish") ∧
        cfg.Protocol ≠ "" ∧ cfg.Features ≠ []) ∧
    (¬ (cfg.Provider ≠ "" ∧ (cfg.Provider = "ipmitool" ∨ cfg.Provider = "gofish") ∧
        cfg.Protocol ≠ "" ∧ cfg.Features ≠ []) →
      ∃ err, testsConfig (Except.ok cfg) = Except.error err ∧
        ∀ (σ : Type) (P : Providers) (B : Bmclib σ) (ctx : Context) (timeout : Duration)
          (logLevel : String) (disableFilter : Bool)
          (loadedHardware : Except String ConfigHardware) (schedule : List Nat),
          run P B ctx timeout logLevel disableFilter (Except.ok cfg) loadedHardware schedule
            = Except.error err) ∧
    (cfg.Provider ∈ SupportedProviders → cfg.Protocol ∈ SupportedProtocols →
      cfg.Features ≠ [] → testsConfig (Except.ok cfg) = Except.ok cfg) := by
  have hcases : (cfg.Provider ≠ "" ∧ (cfg.Provider = "ipmitool" ∨ cfg.Provider = "gofish") ∧
        cfg.Protocol ≠ "" ∧ cfg.Features ≠ []) ∧ testsConfig (Except.ok cfg) = Except.ok cfg ∨
      ¬ (cfg.Provider ≠ "" ∧ (cfg.Provider = "ipmitool" ∨ cfg.Provider = "gofish") ∧
        cfg.Protocol ≠ "" ∧ cfg.Features ≠ []) ∧
        ∃ err, testsConfig (Except.ok cfg) = Except.error err := by
    simp only [testsConfig]
    split_ifs with h1 h2 h3 h4
    · exact Or.inr ⟨fun h => h.1 h1, _, rfl⟩
    · exact Or.inr ⟨fun h => h.2.2.1 h2, _, rfl⟩
    · refine Or.inr ⟨fun h => ?_, _, rfl⟩
      simp [SupportedProviders] at h3
      rcases h.2.1 with h | h
      · exact h3.1 h
      · exact h3.2 h
    · refine Or.inr ⟨fun h => ?_, _, rfl⟩
      exact h.2.2.2 (List.length_eq_zero.mp h4)
    · refine Or.inl ⟨⟨h1, ?_, h2, fun h => h4 (by simp [h])⟩, rfl⟩
      simp [SupportedProviders] at h3
      by_cases hp : cfg.Provider = "ipmitool"
      · exact Or.inl hp
      · exact Or.inr (h3 hp)
  have hsupported : cfg.Provider ∈ SupportedProviders → cfg.Protocol ∈ SupportedProtocols →
      cfg.Features ≠ [] →
      (cfg.Provider ≠ "" ∧ (cfg.Provider = "ipmitool" ∨ cfg.Provider = "gofish") ∧
        cfg.Protocol ≠ "" ∧ cfg.Features ≠ []) := by
    intro hp hq hf
    simp only [SupportedProviders, SupportedProtocols, List.mem_cons, List.mem_singleton,
      List.not_mem_nil, or_false] at hp hq
    refine ⟨?_, hp, ?_, hf⟩
    · rcases hp with h | h <;> rw [h] <;> decide
    · rcases hq with h | h <;> rw [h] <;> decide
  rcases hcases with ⟨hc, hok⟩ | ⟨hc, err, herr⟩
  · refine ⟨?_, fun h => absurd hc h, fun _ _ _ => hok⟩
    intro out hout
    rw [hok] at hout
    exact ⟨(Except.ok.inj hout).symm, hc⟩
  · refine ⟨?_, fun _ => ⟨err, herr, ?_⟩, fun hp hq hf => absurd (hsupported hp hq hf) hc⟩
    · intro out hout
      rw [herr] at hout
      exact Except.noConfusion hout
    · intro σ P B ctx timeout logLevel disableFilter loadedHardware schedule
      simp only [run, herr]

/-- C8 fails on feature names: `testsConfig` accepts a configuration with a feature name
that is not a key of the registry, `initTester` is where it is found unknown, and `run`
goes on to test the devices. -/
theorem testsConfig_accepts_unknown_feature :
    testsConfig (Except.ok unknownFeatureTests) = Except.ok unknownFeatureTests ∧
    "nosuchfeature" ∈ unknownFeatureTests.Features ∧
    "nosuchfeature" ∉ registryKeys bmclibProviders simBmclib ∧
    (initTester bmclibProviders simBmclib
        (NewTester "10.0.0.1" "admin" "secret" "623" false "info")
        Context.Background unknownFeatureTests).1
      = some "unknown bmclib feature defined in test: nosuchfeature" ∧
    run bmclibProviders simBmclib Context.Background Minute "info" false
        (Except.ok unknownFeatureTests) (Except.ok sampleHardware) []
      = Except.ok
          [ { Vendor := "dell", Model := "r640", Name := "node1", BMCIP := "10.0.0.1",
              Results := [] },
            { Vendor := "hp", Model := "dl360", Name := "node2", BMCIP := "unreachable",
              Results := [] },
            { Vendor := "smc", Model := "x11", Name := "node3", BMCIP := "flaky",
              Results := [] } ] := by
  refine ⟨by rfl, by decide, by decide, by rfl, by rfl⟩

/-- C10, as the code has it.  The registry has five entries, with five different keys:
power state, power set, boot device set, BMC reset, user read.  Exactly four of them
(power set, boot device set, BMC reset, user read) are no-ops that return the empty
output and no error for every client and context; the one left, power state, is the
client's `GetPowerState`. -/
theorem registry_four_noops {σ : Type} (P : Providers) (B : Bmclib σ) :
    (registry P B).length = 5 ∧
    registryKeys P B = [P.FeaturePowerState, P.FeaturePowerSet, P.FeatureBootDeviceSet,
      P.FeatureBmcReset, P.FeatureUserRead] ∧
    (registryKeys P B).Nodup ∧
    noopCount P 4 ∧
    (∀ k, NoopFeature P k ↔
      k ∈ [P.FeaturePowerSet, P.FeatureBootDeviceSet, P.FeatureBmcReset, P.FeatureUserRead]) ∧
    (registry P B).lookup P.FeaturePowerState = some (powerState B) ∧
    (∀ ctx conn, powerState B ctx conn = B.GetPowerState ctx conn) ∧
    ¬ NoopFeature P P.FeaturePowerState :=
  ⟨rfl, rfl, P.distinct, noopCount_four P, noopFeature_iff P, (registry_lookup P B).1,
    fun _ _ => rfl, fun h => by
      have hmem := (noopFeature_iff P _).mp h
      have hne := P.ne
      simp only [List.mem_cons, List.mem_singleton, List.not_mem_nil, or_false] at hmem
      rcases hmem with h | h | h | h
      · exact hne.1 h
      · exact hne.2.1 h
      · exact hne.2.2.1 h
      · exact hne.2.2.2.1 h⟩

/-- C10 fails on the count: it is not the case that exactly three of the registered
features are no-ops (four are). -/
theorem registry_not_three_noops :
    (registry bmclibProviders simBmclib).length = 5 ∧ ¬ noopCount bmclibProviders 3 :=
  ⟨rfl, fun h => by
    have := noopCount_unique bmclibProviders 3 h
    omega⟩

/-! ## The theorems at concrete inputs -/

/-- C1 on the simulated host whose power state query fails. -/
theorem Run_one_result_per_feature_witness :
    (∀ f ∈ sampleTests.Features, f ∈ registryKeys bmclibProviders simBmclib) ∧
    (Run bmclibProviders simBmclib (NewTester "flaky" "admin" "secret" "623" false "info")
        Context.Background sampleTests).1.Results.length = 2 ∧
    (Run bmclibProviders simBmclib (NewTester "flaky" "admin" "secret" "623" false "info")
        Context.Background sampleTests).1.Results.map (fun r => r.Feature)
      = ["powerstate", "bmcreset"] :=
  ⟨by decide,
    Run_one_result_per_feature bmclibProviders simBmclib "flaky" "admin" "secret" "623" false
      "info" Context.Background sampleTests (by decide)⟩

/-- C2 on the simulated host that refuses the connection. -/
theorem Run_open_failed_results_witness :
    (∀ f ∈ sampleTests.Features, f ∈ registryKeys bmclibProviders simBmclib) ∧
    (simBmclib.Open Context.Background (newBmclibClient simBmclib
        (NewTester "unreachable" "admin" "secret" "623" false "info")
        sampleTests.Provider sampleTests.Protocol)).1 = some "failed to open connection" ∧
    (Run bmclibProviders simBmclib (NewTester "unreachable" "admin" "secret" "623" false "info")
        Context.Background sampleTests).2.2.filter Event.isTestFunc = [] ∧
    (Run bmclibProviders simBmclib (NewTester "unreachable" "admin" "secret" "623" false "info")
        Context.Background sampleTests).1.Results
      = [ { Feature := "powerstate", Protocol := "ipmi", ProvidersAttempted := ["ipmitool"],
            Error := "failed to open connection" },
          { Feature := "bmcreset", Protocol := "ipmi", ProvidersAttempted := ["ipmitool"],
            Error := "failed to open connection" } ] :=
  ⟨by decide, rfl,
    (Run_open_failed_results bmclibProviders simBmclib "unreachable" "admin" "secret" "623"
      false "info" Context.Background sampleTests "failed to open connection"
      (by decide) rfl).1,
    (Run_open_failed_results bmclibProviders simBmclib "unreachable" "admin" "secret" "623"
      false "info" Context.Background sampleTests "failed to open connection"
      (by decide) rfl).2.2.2⟩

/-- C4 on a configuration that resolves and on one that does not. -/
theorem initTester_all_or_nothing_witness :
    (∀ f ∈ sampleTests.Features, f ∈ registryKeys bmclibProviders simBmclib) ∧
    (∃ ts, initTester bmclibProviders simBmclib
          (NewTester "10.0.0.1" "admin" "secret" "623" false "info") Context.Background
          sampleTests
        = (none, { (NewTester "10.0.0.1" "admin" "secret" "623" false "info" :
            Tester SimClient) with tests := ts }) ∧
      ts.length = sampleTests.Features.length ∧
      List.Forall₂
        (fun f tst => tst.Feature = f ∧
          (registry bmclibProviders simBmclib).lookup f = some tst.TestFunc)
        sampleTests.Features ts) ∧
    (¬ ∀ f ∈ unknownFeatureTests.Features, f ∈ registryKeys bmclibProviders simBmclib) ∧
    (∃ pre f post, unknownFeatureTests.Features = pre ++ f :: post ∧
      (∀ g ∈ pre, g ∈ registryKeys bmclibProviders simBmclib) ∧
      f ∉ registryKeys bmclibProviders simBmclib ∧
      initTester bmclibProviders simBmclib
          (NewTester "10.0.0.1" "admin" "secret" "623" false "info") Context.Background
          unknownFeatureTests
        = (some ("unknown bmclib feature defined in test: " ++ f),
            NewTester "10.0.0.1" "admin" "secret" "623" false "info")) :=
  ⟨by decide,
    (initTester_all_or_nothing bmclibProviders simBmclib
      (NewTester "10.0.0.1" "admin" "secret" "623" false "info") Context.Background
      sampleTests).1 (by decide),
    by decide,
    (initTester_all_or_nothing bmclibProviders simBmclib
      (NewTester "10.0.0.1" "admin" "secret" "623" false "info") Context.Background
      unknownFeatureTests).2 (by decide)⟩

/-- C5 on the sample inventory, the second device finishing first. -/
theorem run_one_result_per_device_witness :
    testsConfig (Except.ok sampleTests) = Except.ok sampleTests ∧
    hardwareConfig (Except.ok sampleHardware) = Except.ok sampleHardware ∧
    ∃ results,
      run bmclibProviders simBmclib Context.Background Minute "info" false
          (Except.ok sampleTests) (Except.ok sampleHardware) [1, 1]
        = Except.ok results ∧
      results.length = sampleHardware.Devices.length ∧
      results.Perm (sampleHardware.Devices.map
        (expectedDeviceResult bmclibProviders simBmclib
          (Context.WithTimeout Context.Background Minute) sampleTests false "info")) :=
  ⟨rfl, rfl,
    run_one_result_per_device bmclibProviders simBmclib Context.Background Minute "info" false
      (Except.ok sampleTests) (Except.ok sampleHardware) sampleTests sampleHardware [1, 1]
      rfl rfl⟩

/-- C7, as the code has it, on a host that opens and on one that refuses. -/
theorem Run_close_after_successful_open_witness :
    (simBmclib.Open Context.Background (newBmclibClient simBmclib
        (NewTester "10.0.0.1" "admin" "secret" "623" false "info")
        sampleTests.Provider sampleTests.Protocol)).1 = none ∧
    (Run bmclibProviders simBmclib (NewTester "10.0.0.1" "admin" "secret" "623" false "info")
        Context.Background sampleTests).2.2.filter Event.onClient
      = [Event.Open Context.Background,
         Event.TestFunc "powerstate" Context.Background,
         Event.TestFunc "bmcreset" Context.Background,
         Event.Close (Context.WithTimeout Context.Background (Minute * 1))] ∧
    (simBmclib.Open Context.Background (newBmclibClient simBmclib
        (NewTester "unreachable" "admin" "secret" "623" false "info")
        sampleTests.Provider sampleTests.Protocol)).1 = some "failed to open connection" ∧
    (Run bmclibProviders simBmclib (NewTester "unreachable" "admin" "secret" "623" false "info")
        Context.Background sampleTests).2.2.filter Event.onClient
      = [Event.Open Context.Background] :=
  ⟨rfl,
    (Run_close_after_successful_open bmclibProviders simBmclib
      (NewTester "10.0.0.1" "admin" "secret" "623" false "info") Context.Background
      sampleTests).1 rfl,
    rfl,
    (Run_close_after_successful_open bmclibProviders simBmclib
      (NewTester "unreachable" "admin" "secret" "623" false "info") Context.Background
      sampleTests).2 "failed to open connection" rfl⟩

/-- C8, as the code has it, on an accepted configuration and on one with no provider. -/
theorem testsConfig_accepted_invariant_witness :
    (testsConfig (Except.ok sampleTests) = Except.ok sampleTests ∧
      (sampleTests = sampleTests ∧ sampleTests.Provider ≠ "" ∧
        (sampleTests.Provider = "ipmitool" ∨ sampleTests.Provider = "gofish") ∧
        sampleTests.Protocol ≠ "" ∧ sampleTests.Features ≠ [])) ∧
    ∃ err, testsConfig (Except.ok { sampleTests with Provider := "" }) = Except.error err ∧
      ∀ (σ : Type) (P : Providers) (B : Bmclib σ) (ctx : Context) (timeout : Duration)
        (logLevel : String) (disableFilter : Bool)
        (loadedHardware : Except String ConfigHardware) (schedule : List Nat),
        run P B ctx timeout logLevel disableFilter
            (Except.ok { sampleTests with Provider := "" }) loadedHardware schedule
          = Except.error err :=
  ⟨⟨(testsConfig_accepted_invariant sampleTests).2.2 (by decide) (by decide) (by decide),
      (testsConfig_accepted_invariant sampleTests).1 sampleTests rfl⟩,
    (testsConfig_accepted_invariant { sampleTests with Provider := "" }).2.1 (by decide)⟩

/-- C9 on a configuration with an unknown feature, the host accepting the connection. -/
theorem Run_unknown_feature_witness :
    (¬ ∀ f ∈ unknownFeatureTests.Features, f ∈ registryKeys bmclibProviders simBmclib) ∧
    (Run bmclibProviders simBmclib (NewTester "10.0.0.1" "admin" "secret" "623" false "info")
        Context.Background unknownFeatureTests).1.Results = [] ∧
    (Run bmclibProviders simBmclib (NewTester "10.0.0.1" "admin" "secret" "623" false "info")
        Context.Background unknownFeatureTests).2.2.filter Event.isTestFunc = [] :=
  ⟨by decide,
    (Run_unknown_feature bmclibProviders simBmclib "10.0.0.1" "admin" "secret" "623" false
      "info" Context.Background unknownFeatureTests (by decide)).1,
    (Run_unknown_feature bmclibProviders simBmclib "10.0.0.1" "admin" "secret" "623" false
      "info" Context.Background unknownFeatureTests (by decide)).2.1⟩

end BmclibTester
